import Mathlib

/-!
Verification development for the weibo-search repository.

The repository's visible source is `weibo/main.py`: a CLI layer that parses
flags, validates them, updates a Scrapy settings object and launches the
crawl engine named `search`.  The crawl engine itself (task enumeration,
window splitting, dedup, result limiting) is not part of the visible source;
those parts are modelled from the specification, each such definition marked
`Modelled from the spec:` in its doc comment.

Python strings are embedded as Lean `String`, optional CLI arguments as
`Option`, Python truthiness tests as explicit boolean functions, functions
that may raise as `Except`-valued functions, and the mutable Scrapy settings
object as a finite map `String → Option SettingValue` updated functionally.
-/

namespace WeiboSearch

/-! ## Dates and `datetime.strptime(s, "%Y-%m-%d")`

CPython's `_strptime` compiles the format `%Y-%m-%d` to the regex
`(?P<Y>\d\d\d\d)-(?P<m>1[0-2]|0[1-9]|[1-9])-(?P<d>3[01]|[12]\d|0[1-9]|[1-9])`
and requires the whole input to be consumed; afterwards `date(y, m, d)` is
constructed, raising `ValueError` for a day out of range for the month or a
year outside `1..9999`.  We embed this in two stages: `regexYMD` (the shape
stage) and `validDate` (the calendar-construction stage). -/

/-- Numeric value of a list of ASCII digit characters, most significant first. -/
def natOfDigits (l : List Char) : Nat :=
  l.foldl (fun a c => 10 * a + (c.toNat - 48)) 0

/-- Split a character list on the literal dash, keeping empty groups
(the embedding of how the two literal `-` of the format cut the input). -/
def splitDash (l : List Char) : List (List Char) :=
  match l with
  | [] => [[]]
  | c :: rest =>
    match splitDash rest with
    | [] => [[]]
    | g :: gs => if c = '-' then [] :: g :: gs else (c :: g) :: gs

/-- The `%Y` group: exactly four ASCII digits. -/
def yearToken (t : List Char) : Option Nat :=
  if t.length = 4 ∧ t.all Char.isDigit then some (natOfDigits t) else none

/-- The `%m` group: one or two ASCII digits with value `1..12`
(exactly the language of `1[0-2]|0[1-9]|[1-9]`). -/
def monthToken (t : List Char) : Option Nat :=
  if (t.length = 1 ∨ t.length = 2) ∧ t.all Char.isDigit then
    let v := natOfDigits t
    if 1 ≤ v ∧ v ≤ 12 then some v else none
  else none

/-- The `%d` group: one or two ASCII digits with value `1..31`
(exactly the language of `3[01]|[12]\d|0[1-9]|[1-9]`). -/
def dayToken (t : List Char) : Option Nat :=
  if (t.length = 1 ∨ t.length = 2) ∧ t.all Char.isDigit then
    let v := natOfDigits t
    if 1 ≤ v ∧ v ≤ 31 then some v else none
  else none

/-- The regex stage of `strptime(s, "%Y-%m-%d")`: full-match shape parsing,
before calendar construction. -/
def regexYMD (s : String) : Option (Nat × Nat × Nat) :=
  match splitDash s.toList with
  | [ys, ms, ds] =>
    match yearToken ys, monthToken ms, dayToken ds with
    | some y, some m, some d => some (y, m, d)
    | _, _, _ => none
  | _ => none

/-- Gregorian leap-year rule used by `datetime.date`. -/
def isLeap (y : Nat) : Bool :=
  (y % 4 = 0 ∧ y % 100 ≠ 0) ∨ y % 400 = 0

/-- Length of a month as `datetime.date` computes it. -/
def daysInMonth (y m : Nat) : Nat :=
  if m = 2 then (if isLeap y then 29 else 28)
  else if m = 4 ∨ m = 6 ∨ m = 9 ∨ m = 11 then 30
  else 31

/-- The validation performed by the `datetime.date(y, m, d)` constructor:
`MINYEAR ≤ y ≤ MAXYEAR`, `1 ≤ m ≤ 12`, `1 ≤ d ≤ days_in_month`. -/
def validDate (y m d : Nat) : Bool :=
  1 ≤ y ∧ y ≤ 9999 ∧ 1 ≤ m ∧ m ≤ 12 ∧ 1 ≤ d ∧ d ≤ daysInMonth y m

/-- A calendar date as produced by `datetime.strptime(_, "%Y-%m-%d")`
(the time-of-day part is always midnight and plays no role). -/
structure Date where
  year : Nat
  month : Nat
  day : Nat
deriving DecidableEq, Repr

/-- Embedding of `datetime.strptime(s, "%Y-%m-%d")`: regex stage, then calendar
construction; `.error` is a raised `ValueError`. -/
def strptime (s : String) : Except String Date :=
  match regexYMD s with
  | none => .error "time data does not match format"
  | some (y, m, d) =>
    if validDate y m d then .ok ⟨y, m, d⟩
    else .error "day is out of range for month"

/-- Function `validate_date` from `weibo/main.py`: `strptime` under
`try/except ValueError`, returning a boolean. -/
def validate_date (s : String) : Bool :=
  match strptime s with
  | .ok _ => true
  | .error _ => false

/-- Chronological strict order on dates, as `datetime` comparison computes
it (lexicographic on year, month, day). -/
def dateLt (a b : Date) : Bool :=
  a.year < b.year
  ∨ (a.year = b.year ∧ a.month < b.month)
  ∨ (a.year = b.year ∧ a.month = b.month ∧ a.day < b.day)

/-! ## CLI arguments and validation (`weibo/main.py`) -/

/-- The parsed command-line arguments produced by `parse_arguments`.
Flags without a default are `Option` (`none` = not supplied); `--log-level`
has the argparse default `"ERROR"`, so it is always a string. -/
structure Args where
  keywords : Option String
  keyword_file : Option String
  start_date : Option String
  end_date : Option String
  weibo_type : Option Int
  contain_type : Option Int
  region : Option String
  limit : Option Int
  delay : Option Rat
  output_dir : Option String
  log_level : String
deriving Repr

/-- Python truthiness of an optional string (`if args.x:`): `None` and the
empty string are falsy. -/
def strTruthy (o : Option String) : Bool :=
  match o with
  | none => false
  | some s => s ≠ ""

/-- The filesystem facts `validate_arguments` consults: `os.path.isfile`,
`os.path.isdir`, and whether `os.makedirs(p, exist_ok=True)` succeeds. -/
structure FS where
  isfile : String → Bool
  isdir : String → Bool
  makedirsOk : String → Bool

/-- One entry of the `errors` list built by `validate_arguments`; each
constructor is one of the five (f-)string messages appended there. -/
inductive ErrMsg
  | startFormat (s : String)
  | endFormat (s : String)
  | dateOrder
  | keywordFileMissing (p : String)
  | outputDirFail (p : String)
deriving DecidableEq, Repr

/-- Function `validate_arguments` from `weibo/main.py`, restructured to return its
collected `errors` list: the source prints the list and calls `sys.exit(1)`
when it is non-empty (that branch lives in `main` below).  `.error ()` is
the uncaught `ValueError` raised by the bare `datetime.strptime` calls on
lines 120-121 when a date string is truthy but does not parse. -/
def validate_arguments (fs : FS) (a : Args) : Except Unit (List ErrMsg) := do
  let e1 : List ErrMsg :=
    if strTruthy a.start_date ∧ ¬ validate_date (a.start_date.getD "") then
      [.startFormat (a.start_date.getD "")]
    else []
  let e2 : List ErrMsg :=
    if strTruthy a.end_date ∧ ¬ validate_date (a.end_date.getD "") then
      [.endFormat (a.end_date.getD "")]
    else []
  let e3 : List ErrMsg ←
    if strTruthy a.start_date ∧ strTruthy a.end_date then
      match strptime (a.start_date.getD ""), strptime (a.end_date.getD "") with
      | .ok s, .ok e => pure (if dateLt e s then [.dateOrder] else [])
      | _, _ => throw ()
    else pure []
  let e4 : List ErrMsg :=
    if strTruthy a.keyword_file ∧ ¬ fs.isfile (a.keyword_file.getD "") then
      [.keywordFileMissing (a.keyword_file.getD "")]
    else []
  let e5 : List ErrMsg :=
    if strTruthy a.output_dir ∧ ¬ fs.isdir (a.output_dir.getD "")
        ∧ ¬ fs.makedirsOk (a.output_dir.getD "") then
      [.outputDirFail (a.output_dir.getD "")]
    else []
  pure (e1 ++ e2 ++ e3 ++ e4 ++ e5)

/-! ## Settings updates (`update_settings_from_args`) -/

/-- Python whitespace as stripped by `str.strip()` (ASCII part). -/
def isPySpace (c : Char) : Bool :=
  c = ' ' ∨ c = '\t' ∨ c = '\n' ∨ c = '\r' ∨ c = '\x0b' ∨ c = '\x0c'

/-- Python `str.strip()`: drop whitespace from both ends. -/
def pyStrip (s : String) : String :=
  String.mk (((s.toList.dropWhile isPySpace).reverse.dropWhile isPySpace).reverse)

/-- Python `str.split(',')` over a character list, keeping empty groups. -/
def splitComma (l : List Char) : List (List Char) :=
  match l with
  | [] => [[]]
  | c :: rest =>
    match splitComma rest with
    | [] => [[]]
    | g :: gs => if c = ',' then [] :: g :: gs else (c :: g) :: gs

/-- The comprehension `[kw.strip() for kw in s.split(',') if kw.strip()]`: split on commas,
strip each token, drop tokens that strip to the empty string. -/
def splitCommaStripFilter (s : String) : List String :=
  (((splitComma s.toList).map (fun g => pyStrip (String.mk g))).filter
    (fun t => t ≠ ""))

/-- A value stored in the Scrapy settings object by `main.py`. -/
inductive SettingValue
  | str (s : String)
  | int (n : Int)
  | float (q : Rat)
  | strList (l : List String)
deriving DecidableEq, Repr

/-- Python truthiness of `settings.get(k)` (`if not keyword_list:`):
`None`, `""`, `0`, `0.0` and `[]` are falsy. -/
def optTruthy (o : Option SettingValue) : Bool :=
  match o with
  | none => false
  | some (.str s) => s ≠ ""
  | some (.int n) => n ≠ 0
  | some (.float q) => q ≠ 0
  | some (.strList l) => l ≠ []

/-- The Scrapy settings object, as the finite map its `get`/`set` expose. -/
def Settings : Type := String → Option SettingValue

/-- Method `settings.set(k, v)`. -/
def Settings.set (s : Settings) (k : String) (v : SettingValue) : Settings :=
  fun k2 => if k2 = k then some v else s k2

/-- Lines 147-153: `--keywords` wins over `--keyword-file`; a truthy
`--keywords` string is tokenized, a keyword file path is stored as a plain
string. -/
def updKeywords (a : Args) (s : Settings) : Settings :=
  if strTruthy a.keywords then
    s.set "KEYWORD_LIST" (.strList (splitCommaStripFilter (a.keywords.getD "")))
  else if strTruthy a.keyword_file then
    s.set "KEYWORD_LIST" (.str (a.keyword_file.getD ""))
  else s

/-- Lines 156-158. -/
def updStart (a : Args) (s : Settings) : Settings :=
  if strTruthy a.start_date then s.set "START_DATE" (.str (a.start_date.getD ""))
  else s

/-- Lines 160-162. -/
def updEnd (a : Args) (s : Settings) : Settings :=
  if strTruthy a.end_date then s.set "END_DATE" (.str (a.end_date.getD ""))
  else s

/-- Lines 165-168 (`is not None` test). -/
def updWeibo (a : Args) (s : Settings) : Settings :=
  match a.weibo_type with
  | some t => s.set "WEIBO_TYPE" (.int t)
  | none => s

/-- Lines 171-174 (`is not None` test). -/
def updContain (a : Args) (s : Settings) : Settings :=
  match a.contain_type with
  | some t => s.set "CONTAIN_TYPE" (.int t)
  | none => s

/-- Lines 177-180: the same split-strip-filter transformation as for
`--keywords`. -/
def updRegion (a : Args) (s : Settings) : Settings :=
  if strTruthy a.region then
    s.set "REGION" (.strList (splitCommaStripFilter (a.region.getD "")))
  else s

/-- Lines 183-185 (`is not None` test). -/
def updLimit (a : Args) (s : Settings) : Settings :=
  match a.limit with
  | some n => s.set "LIMIT_RESULT" (.int n)
  | none => s

/-- Lines 188-190 (`is not None` test). -/
def updDelay (a : Args) (s : Settings) : Settings :=
  match a.delay with
  | some q => s.set "DOWNLOAD_DELAY" (.float q)
  | none => s

/-- Lines 193-196: a truthy `--output-dir` sets both stores. -/
def updOutput (a : Args) (s : Settings) : Settings :=
  if strTruthy a.output_dir then
    (s.set "IMAGES_STORE" (.str (a.output_dir.getD ""))).set "FILES_STORE"
      (.str (a.output_dir.getD ""))
  else s

/-- Function `update_settings_from_args` from `weibo/main.py`: the conditional
branches of the source in order, ending with the unconditional `LOG_LEVEL`
assignment of line 199. -/
def update_settings_from_args (s : Settings) (a : Args) : Settings :=
  (updOutput a (updDelay a (updLimit a (updRegion a (updContain a (updWeibo a
    (updEnd a (updStart a (updKeywords a s))))))))).set "LOG_LEVEL"
    (.str a.log_level)

/-! ## The entry point `main` -/

/-- The observable outcome of `main`:
* `validationExit errs` — `validate_arguments` printed its non-empty error
  list and called `sys.exit(1)`; no crawl engine was created;
* `strptimeCrash` — the bare `strptime` on lines 120-121 raised an uncaught
  `ValueError`; the interpreter exits with code 1; no crawl engine created;
* `missingKeywordExit` — `KEYWORD_LIST` was falsy after the settings update;
  `sys.exit(1)` before `CrawlerProcess` is constructed;
* `run settings spiders` — a `CrawlerProcess(settings)` was created, each
  name in `spiders` passed to `process.crawl`, and `process.start()` blocks
  until the crawl completes. -/
inductive MainOutcome
  | validationExit (errs : List ErrMsg)
  | strptimeCrash
  | missingKeywordExit
  | run (settings : Settings) (spiders : List String)

/-- The process exit code of an outcome, when the process exits instead of
crawling (an uncaught exception makes CPython exit with code 1). -/
def MainOutcome.exitCode : MainOutcome → Option Nat
  | .validationExit _ => some 1
  | .strptimeCrash => some 1
  | .missingKeywordExit => some 1
  | .run _ _ => none

/-- Whether the crawl engine was ever created/started. -/
def MainOutcome.engineStarted : MainOutcome → Bool
  | .run _ _ => true
  | _ => false

/-- Function `main` from `weibo/main.py`: validate, update settings, check
`KEYWORD_LIST`, then create one `CrawlerProcess`, crawl the single spider
`"search"`, and block in `process.start()`.  `settings0` is the result of
`get_project_settings()`. -/
def main (fs : FS) (settings0 : Settings) (a : Args) : MainOutcome :=
  match validate_arguments fs a with
  | .error _ => .strptimeCrash
  | .ok errs =>
    if errs = [] then
      let s := update_settings_from_args settings0 a
      if optTruthy (s "KEYWORD_LIST") then .run s ["search"]
      else .missingKeywordExit
    else .validationExit errs

/-! ## Crawl-engine model

The crawl engine (`search` spider) is not part of the visible source; the
definitions below are modelled from the spec's component design (§3, §4.1,
§4.2, §4.4). -/

/-- Modelled from the spec: a `SearchTask` — immutable unit of crawl work
`{keyword, date_start, date_end, region, weibo_type, contain_type}` with the
invariant `date_start <= date_end`.  Calendar days are represented as day
ordinals (`Nat`), the interval being closed on both ends. -/
structure SearchTask where
  keyword : String
  date_start : Nat
  date_end : Nat
  region : Option String
  weibo_type : Nat
  contain_type : Nat
deriving DecidableEq, Repr

/-- The set of calendar days a task covers. -/
def SearchTask.days (t : SearchTask) : Finset Nat :=
  Finset.Icc t.date_start t.date_end

/-- Modelled from the spec: a one-day task cannot be split further; only a
task whose interval spans more than one calendar day may be split. -/
def SearchTask.canSplit (t : SearchTask) : Bool :=
  t.date_start < t.date_end

/-- Modelled from the spec: the Enumerator's `split(task)` — bisect the date
interval at the midpoint day into two sub-intervals whose union equals the
original and whose intersection is empty. -/
def split (t : SearchTask) : SearchTask × SearchTask :=
  let mid := (t.date_start + t.date_end) / 2
  ({ t with date_end := mid }, { t with date_start := mid + 1 })

/-- Modelled from the spec: a `PostRecord` — a single extracted item with a
stable `content_id`, immutable once created. -/
structure PostRecord where
  content_id : String
  author : String
  timestamp : Nat
  text : String
  media_links : List String
  raw_type_flags : Nat
deriving DecidableEq, Repr

/-- Modelled from the spec: the run-scoped mutable state the Pagination
Driver threads through a run — the `SeenSet` of emitted `content_id`s, the
emitted records, the Ledger's `emitted_count`, and whether the global result
limit has ended the run. -/
structure RunState where
  seen : List String
  emitted : List PostRecord
  emitted_count : Nat
  stopped : Bool
deriving Repr

/-- The fresh state at run start. -/
def RunState.init : RunState := ⟨[], [], 0, false⟩

/-- Modelled from the spec: handling of one candidate record —
`dedup(candidate, seen)` accepts and adds iff the `content_id` is not
already present (rejects are silently dropped), and after every accepted
record the Driver checks the configured result limit (`0` = unlimited),
ending the run immediately when it is reached. -/
def stepRecord (limit : Nat) (st : RunState) (r : PostRecord) : RunState :=
  if st.stopped then st
  else if r.content_id ∈ st.seen then st
  else
    let st2 : RunState :=
      ⟨r.content_id :: st.seen, st.emitted ++ [r], st.emitted_count + 1, st.stopped⟩
    if 0 < limit ∧ st2.emitted_count = limit then { st2 with stopped := true }
    else st2

/-- Run the Driver over the candidate records of one task (the records its
pages yield, in page order). -/
def runTask (limit : Nat) (st : RunState) (task : List PostRecord) : RunState :=
  task.foldl (stepRecord limit) st

/-- Run the Driver over a queue of tasks from a given state; the `SeenSet`
and the stop flag are threaded across task boundaries (run-scoped, not
per-task). -/
def runFrom (limit : Nat) (st : RunState) (tasks : List (List PostRecord)) :
    RunState :=
  tasks.foldl (runTask limit) st

/-- A whole run over a queue of tasks. -/
def runTasks (limit : Nat) (tasks : List (List PostRecord)) : RunState :=
  runFrom limit RunState.init tasks

/-- Number of distinct `content_id`s among all candidates of a run. -/
def distinctIds (tasks : List (List PostRecord)) : Nat :=
  ((tasks.flatten.map PostRecord.content_id).toFinset).card

/-! ## Concrete inputs used by the witness theorems -/

/-- An empty filesystem view. -/
def fsW : FS := ⟨fun _ => false, fun _ => false, fun _ => false⟩

/-- Fresh settings where nothing is configured. -/
def s0W : Settings := fun _ => none

/-- All flags unsupplied. -/
def argsNone : Args :=
  ⟨none, none, none, none, none, none, none, none, none, none, "ERROR"⟩

/-- Arguments `--start-date 2024-02-02 --end-date 2024-01-01`. -/
def argsBadOrder : Args :=
  ⟨none, none, some "2024-02-02", some "2024-01-01", none, none, none, none,
    none, none, "ERROR"⟩

/-- Arguments with `--keywords ",, , "` (tokens all strip away). -/
def argsCommaOnly : Args :=
  ⟨some ",, , ", none, none, none, none, none, none, none, none, none, "ERROR"⟩

/-- Arguments `--keywords "a, b" --region "c,, d"`. -/
def argsKw : Args :=
  ⟨some "a, b", none, none, none, none, none, some "c,, d", none, none, none,
    "ERROR"⟩

/-- Arguments `--start-date 2024-05-05 --end-date 2024-5-5 --keyword-file kf`
(equal dates written differently; the file is missing in `fsW`). -/
def argsEqDates : Args :=
  ⟨none, some "kf", some "2024-05-05", some "2024-5-5", none, none, none,
    none, none, none, "ERROR"⟩

/-- A candidate record. -/
def recA : PostRecord := ⟨"id-a", "u1", 0, "ta", [], 0⟩

/-- A second candidate record with a distinct `content_id`. -/
def recB : PostRecord := ⟨"id-b", "u2", 1, "tb", [], 0⟩

/-- A four-day task. -/
def taskW : SearchTask := ⟨"A", 10, 13, none, 0, 0⟩

/-! ## Helper lemmas -/

lemma Settings.set_same (s : Settings) (k : String) (v : SettingValue) :
    s.set k v k = some v := if_pos rfl

lemma Settings.set_other (s : Settings) (k k2 : String) (v : SettingValue)
    (h : ¬ k2 = k) : s.set k v k2 = s k2 := if_neg h

lemma updKeywords_other (a : Args) (s : Settings) (k : String)
    (h : ¬ k = "KEYWORD_LIST") : updKeywords a s k = s k := by
  unfold updKeywords
  split
  · exact Settings.set_other _ _ _ _ h
  · split
    · exact Settings.set_other _ _ _ _ h
    · rfl

lemma updStart_other (a : Args) (s : Settings) (k : String)
    (h : ¬ k = "START_DATE") : updStart a s k = s k := by
  unfold updStart
  split
  · exact Settings.set_other _ _ _ _ h
  · rfl

lemma updEnd_other (a : Args) (s : Settings) (k : String)
    (h : ¬ k = "END_DATE") : updEnd a s k = s k := by
  unfold updEnd
  split
  · exact Settings.set_other _ _ _ _ h
  · rfl

lemma updWeibo_other (a : Args) (s : Settings) (k : String)
    (h : ¬ k = "WEIBO_TYPE") : updWeibo a s k = s k := by
  unfold updWeibo
  cases a.weibo_type
  · rfl
  · exact Settings.set_other _ _ _ _ h

lemma updContain_other (a : Args) (s : Settings) (k : String)
    (h : ¬ k = "CONTAIN_TYPE") : updContain a s k = s k := by
  unfold updContain
  cases a.contain_type
  · rfl
  · exact Settings.set_other _ _ _ _ h

lemma updRegion_other (a : Args) (s : Settings) (k : String)
    (h : ¬ k = "REGION") : updRegion a s k = s k := by
  unfold updRegion
  split
  · exact Settings.set_other _ _ _ _ h
  · rfl

lemma updLimit_other (a : Args) (s : Settings) (k : String)
    (h : ¬ k = "LIMIT_RESULT") : updLimit a s k = s k := by
  unfold updLimit
  cases a.limit
  · rfl
  · exact Settings.set_other _ _ _ _ h

lemma updDelay_other (a : Args) (s : Settings) (k : String)
    (h : ¬ k = "DOWNLOAD_DELAY") : updDelay a s k = s k := by
  unfold updDelay
  cases a.delay
  · rfl
  · exact Settings.set_other _ _ _ _ h

lemma updOutput_other (a : Args) (s : Settings) (k : String)
    (h1 : ¬ k = "IMAGES_STORE") (h2 : ¬ k = "FILES_STORE") :
    updOutput a s k = s k := by
  unfold updOutput
  split
  · rw [Settings.set_other _ _ _ _ h2, Settings.set_other _ _ _ _ h1]
  · rfl

/-- The run invariant: the `SeenSet` is exactly the emitted `content_id`s,
the ledger count is exact, emitted ids are distinct, and the stop flag
tracks the configured limit. -/
def Inv (limit : Nat) (st : RunState) : Prop :=
  st.seen = (st.emitted.map PostRecord.content_id).reverse
  ∧ st.emitted_count = st.emitted.length
  ∧ (st.emitted.map PostRecord.content_id).Nodup
  ∧ (0 < limit → st.emitted_count ≤ limit
      ∧ (st.stopped = true ↔ st.emitted_count = limit))
  ∧ (limit = 0 → st.stopped = false)

lemma inv_init (limit : Nat) : Inv limit RunState.init := by
  refine ⟨rfl, rfl, List.nodup_nil, ?_, fun _ => rfl⟩
  intro h
  refine ⟨Nat.zero_le _, ?_⟩
  simp [RunState.init]
  omega

lemma stepRecord_stopped (limit : Nat) (st : RunState) (r : PostRecord)
    (h : st.stopped = true) : stepRecord limit st r = st := by
  unfold stepRecord
  simp [h]

lemma stepRecord_drop (limit : Nat) (st : RunState) (r : PostRecord)
    (h1 : st.stopped = false) (h2 : r.content_id ∈ st.seen) :
    stepRecord limit st r = st := by
  unfold stepRecord
  rw [h1]
  simp [h2]

lemma stepRecord_accept (limit : Nat) (st : RunState) (r : PostRecord)
    (h1 : st.stopped = false) (h2 : r.content_id ∉ st.seen) :
    stepRecord limit st r = ⟨r.content_id :: st.seen, st.emitted ++ [r],
      st.emitted_count + 1,
      decide (0 < limit ∧ st.emitted_count + 1 = limit)⟩ := by
  unfold stepRecord
  rw [h1]
  simp only [Bool.false_eq_true, if_false, h2]
  by_cases hp : 0 < limit ∧ st.emitted_count + 1 = limit
  · simp [hp]
  · simp [hp]

lemma inv_stepRecord (limit : Nat) (st : RunState) (r : PostRecord)
    (h : Inv limit st) : Inv limit (stepRecord limit st r) := by
  obtain ⟨hseen, hcount, hnodup, hlim, hzero⟩ := h
  by_cases hstop : st.stopped = true
  · rw [stepRecord_stopped limit st r hstop]
    exact ⟨hseen, hcount, hnodup, hlim, hzero⟩
  replace hstop : st.stopped = false := by simpa using hstop
  by_cases hmem : r.content_id ∈ st.seen
  · rw [stepRecord_drop limit st r hstop hmem]
    exact ⟨hseen, hcount, hnodup, hlim, hzero⟩
  rw [stepRecord_accept limit st r hstop hmem]
  have hnotin : r.content_id ∉ st.emitted.map PostRecord.content_id := by
    rw [hseen] at hmem
    simpa using hmem
  refine ⟨by simp [hseen], by simp [hcount], ?_, ?_, ?_⟩
  · simp [List.nodup_append, hnodup, hnotin]
  · intro hpos
    have hle := (hlim hpos).1
    have hiff := (hlim hpos).2
    rw [hstop] at hiff
    simp only [Bool.false_eq_true, false_iff] at hiff
    constructor
    · simp only []
      omega
    · simp [hpos]
  · intro h0
    subst h0
    simp

lemma inv_runTask (limit : Nat) (task : List PostRecord) :
    ∀ st : RunState, Inv limit st → Inv limit (runTask limit st task) := by
  induction task with
  | nil => intro st h; exact h
  | cons r rest ih =>
    intro st h
    exact ih (stepRecord limit st r) (inv_stepRecord limit st r h)

lemma inv_runFrom (limit : Nat) (tasks : List (List PostRecord)) :
    ∀ st : RunState, Inv limit st → Inv limit (runFrom limit st tasks) := by
  induction tasks with
  | nil => intro st h; exact h
  | cons t ts ih =>
    intro st h
    exact ih (runTask limit st t) (inv_runTask limit t st h)

lemma inv_runTasks (limit : Nat) (tasks : List (List PostRecord)) :
    Inv limit (runTasks limit tasks) :=
  inv_runFrom limit tasks RunState.init (inv_init limit)

lemma runTask_stopped (limit : Nat) (task : List PostRecord) :
    ∀ st : RunState, st.stopped = true → runTask limit st task = st := by
  induction task with
  | nil => intro st _; rfl
  | cons r rest ih =>
    intro st h
    show runTask limit (stepRecord limit st r) rest = st
    rw [stepRecord_stopped limit st r h]
    exact ih st h

lemma runFrom_stopped (limit : Nat) (tasks : List (List PostRecord)) :
    ∀ st : RunState, st.stopped = true → runFrom limit st tasks = st := by
  induction tasks with
  | nil => intro st _; rfl
  | cons t ts ih =>
    intro st h
    show runFrom limit (runTask limit st t) ts = st
    rw [runTask_stopped limit t st h]
    exact ih st h

lemma runFrom_eq_flatten (limit : Nat) (tasks : List (List PostRecord)) :
    ∀ st : RunState,
      runFrom limit st tasks = tasks.flatten.foldl (stepRecord limit) st := by
  induction tasks with
  | nil => intro st; rfl
  | cons t ts ih =>
    intro st
    show runFrom limit (runTask limit st t) ts = _
    rw [ih, List.flatten_cons, List.foldl_append]
    rfl

lemma stepRecord_seen_mono (limit : Nat) (st : RunState) (r : PostRecord) :
    st.seen ⊆ (stepRecord limit st r).seen := by
  unfold stepRecord
  by_cases hstop : st.stopped = true
  · simp [hstop]
  · simp only [hstop, Bool.false_eq_true, if_false, Bool.not_eq_true] at *
    by_cases hmem : r.content_id ∈ st.seen
    · simp [hmem]
    · simp only [hmem, if_false]
      split
      · exact List.subset_cons_self _ _
      · exact List.subset_cons_self _ _

lemma foldl_seen_mono (limit : Nat) (l : List PostRecord) :
    ∀ st : RunState, st.seen ⊆ (l.foldl (stepRecord limit) st).seen := by
  induction l with
  | nil => intro st; exact fun _ h => h
  | cons r rest ih =>
    intro st
    exact (stepRecord_seen_mono limit st r).trans (ih (stepRecord limit st r))

lemma stepRecord_stop_back (limit : Nat) (st : RunState) (r : PostRecord)
    (h : (stepRecord limit st r).stopped = false) : st.stopped = false := by
  by_cases hstop : st.stopped = true
  · rw [stepRecord_stopped limit st r hstop] at h
    rw [h] at hstop
    exact absurd hstop (by simp)
  · simpa using hstop

lemma foldl_stop_back (limit : Nat) (l : List PostRecord) :
    ∀ st : RunState, (l.foldl (stepRecord limit) st).stopped = false →
      st.stopped = false := by
  induction l with
  | nil => intro st h; exact h
  | cons r rest ih =>
    intro st h
    exact stepRecord_stop_back limit st r (ih (stepRecord limit st r) h)

lemma stepRecord_covers (limit : Nat) (st : RunState) (r : PostRecord)
    (h : st.stopped = false) : r.content_id ∈ (stepRecord limit st r).seen := by
  unfold stepRecord
  simp only [h, Bool.false_eq_true, if_false]
  by_cases hmem : r.content_id ∈ st.seen
  · simp [hmem]
  · simp only [hmem, if_false]
    split
    · exact List.mem_cons_self _ _
    · exact List.mem_cons_self _ _

lemma foldl_covers (limit : Nat) (l : List PostRecord) :
    ∀ st : RunState, (l.foldl (stepRecord limit) st).stopped = false →
      ∀ r ∈ l, r.content_id ∈ (l.foldl (stepRecord limit) st).seen := by
  induction l with
  | nil => intro st _ r hr; cases hr
  | cons q rest ih =>
    intro st hstop r hr
    have hst' : (stepRecord limit st q).stopped = false :=
      foldl_stop_back limit rest (stepRecord limit st q) hstop
    have hst : st.stopped = false := stepRecord_stop_back limit st q hst'
    rcases List.mem_cons.mp hr with heq | hr2
    · rw [heq]
      exact foldl_seen_mono limit rest (stepRecord limit st q)
        (stepRecord_covers limit st q hst)
    · exact ih (stepRecord limit st q) hstop r hr2

lemma strptime_ok_ne_empty (s : String) (d : Date) (h : strptime s = .ok d) :
    s ≠ "" := by
  intro he
  rw [he] at h
  have h0 : strptime "" = Except.error "time data does not match format" := rfl
  rw [h0] at h
  exact Except.noConfusion h

lemma validate_date_of_ok (s : String) (d : Date) (h : strptime s = .ok d) :
    validate_date s = true := by
  unfold validate_date
  rw [h]

/-- When both date arguments parse, `validate_arguments` collects exactly
the date-ordering error (when applicable) and the filesystem errors. -/
lemma validate_arguments_both_parsed (fs : FS) (a : Args) (ss es : String)
    (ds de : Date) (hs : a.start_date = some ss) (he : a.end_date = some es)
    (h1 : strptime ss = .ok ds) (h2 : strptime es = .ok de) :
    validate_arguments fs a = .ok
      ((if dateLt de ds then [ErrMsg.dateOrder] else [])
        ++ ((if strTruthy a.keyword_file ∧ ¬ fs.isfile (a.keyword_file.getD "") then
              [ErrMsg.keywordFileMissing (a.keyword_file.getD "")] else [])
        ++ (if strTruthy a.output_dir ∧ ¬ fs.isdir (a.output_dir.getD "")
              ∧ ¬ fs.makedirsOk (a.output_dir.getD "") then
              [ErrMsg.outputDirFail (a.output_dir.getD "")] else []))) := by
  have hss : ss ≠ "" := strptime_ok_ne_empty ss ds h1
  have hes : es ≠ "" := strptime_ok_ne_empty es de h2
  have hts : strTruthy (some ss) = true := by simpa [strTruthy] using hss
  have hte : strTruthy (some es) = true := by simpa [strTruthy] using hes
  have hvs : validate_date ss = true := validate_date_of_ok ss ds h1
  have hve : validate_date es = true := validate_date_of_ok es de h2
  unfold validate_arguments
  rw [hs, he]
  simp only [Option.getD_some, hts, hte, hvs, hve, h1, h2]
  simp [Bind.bind, Except.bind, Pure.pure, Except.pure]

lemma dateLt_irrefl (d : Date) : dateLt d d = false := by
  simp [dateLt]

/-! ## Claim theorems -/

/-- C7: `validate_date s` returns `true` iff `s` parses as a calendar date
under the format `%Y-%m-%d` — i.e. iff the `strptime` regex stage matches
the whole string and the extracted year/month/day form a valid calendar
date — and it is a total boolean function (the source catches the
`ValueError`). -/
theorem validate_date_iff_parses (s : String) :
    validate_date s = true ↔
      ∃ y m d : Nat, regexYMD s = some (y, m, d) ∧ validDate y m d = true := by
  unfold validate_date strptime
  cases h : regexYMD s with
  | none => simp
  | some t =>
    obtain ⟨y, m, d⟩ := t
    by_cases hv : validDate y m d = true
    · simp only [hv, if_true]
      constructor
      · intro _
        exact ⟨y, m, d, rfl, hv⟩
      · intro _
        trivial
    · simp [hv]

/-- C8: date-ordering validation accepts equal endpoints — when both date
strings parse to the same calendar date, `validate_arguments` does not
report the date-ordering error. -/
theorem equal_dates_no_order_error (fs : FS) (a : Args) (ss es : String)
    (d : Date) (hs : a.start_date = some ss) (he : a.end_date = some es)
    (h1 : strptime ss = .ok d) (h2 : strptime es = .ok d) :
    ∃ errs, validate_arguments fs a = .ok errs ∧ ErrMsg.dateOrder ∉ errs := by
  refine ⟨_, validate_arguments_both_parsed fs a ss es d d hs he h1 h2, ?_⟩
  rw [dateLt_irrefl]
  simp only [Bool.false_eq_true, if_false, List.nil_append, List.mem_append]
  rintro (hmem | hmem) <;> revert hmem <;> split <;> simp

/-- C8 witness: `--start-date 2024-05-05 --end-date 2024-5-5` (the same
calendar date written two ways) produces no date-ordering error, although
the missing keyword file still produces an error. -/
theorem equal_dates_no_order_error_witness :
    ∃ errs, validate_arguments fsW argsEqDates = .ok errs
      ∧ ErrMsg.dateOrder ∉ errs :=
  equal_dates_no_order_error fsW argsEqDates "2024-05-05" "2024-5-5"
    ⟨2024, 5, 5⟩ rfl rfl rfl rfl

/-- C1: when both supplied dates are in valid format and the start date is
strictly later than the end date, `main` prints the validation errors
(among them the date-ordering error) and exits with code 1, and the crawl
engine is never created or started. -/
theorem start_after_end_fatal (fs : FS) (s0 : Settings) (a : Args)
    (ss es : String) (ds de : Date)
    (hs : a.start_date = some ss) (he : a.end_date = some es)
    (h1 : strptime ss = .ok ds) (h2 : strptime es = .ok de)
    (hlt : dateLt de ds = true) :
    ∃ errs, main fs s0 a = .validationExit errs ∧ ErrMsg.dateOrder ∈ errs
      ∧ (main fs s0 a).exitCode = some 1
      ∧ (main fs s0 a).engineStarted = false := by
  have hv := validate_arguments_both_parsed fs a ss es ds de hs he h1 h2
  rw [hlt] at hv
  simp only [if_true] at hv
  have hmem : ErrMsg.dateOrder ∈
      ([ErrMsg.dateOrder]
        ++ ((if strTruthy a.keyword_file ∧ ¬ fs.isfile (a.keyword_file.getD "") then
              [ErrMsg.keywordFileMissing (a.keyword_file.getD "")] else [])
        ++ (if strTruthy a.output_dir ∧ ¬ fs.isdir (a.output_dir.getD "")
              ∧ ¬ fs.makedirsOk (a.output_dir.getD "") then
              [ErrMsg.outputDirFail (a.output_dir.getD "")] else []))) := by
    simp
  have hne : ([ErrMsg.dateOrder]
        ++ ((if strTruthy a.keyword_file ∧ ¬ fs.isfile (a.keyword_file.getD "") then
              [ErrMsg.keywordFileMissing (a.keyword_file.getD "")] else [])
        ++ (if strTruthy a.output_dir ∧ ¬ fs.isdir (a.output_dir.getD "")
              ∧ ¬ fs.makedirsOk (a.output_dir.getD "") then
              [ErrMsg.outputDirFail (a.output_dir.getD "")] else []))) ≠ [] := by
    simp
  refine ⟨_, ?_, hmem, ?_, ?_⟩ <;> unfold main <;> rw [hv] <;>
    simp [hne, MainOutcome.exitCode, MainOutcome.engineStarted]

/-- C1 witness: `--start-date 2024-02-02 --end-date 2024-01-01` exits with
code 1 before the engine starts. -/
theorem start_after_end_fatal_witness :
    ∃ errs, main fsW s0W argsBadOrder = .validationExit errs
      ∧ ErrMsg.dateOrder ∈ errs
      ∧ (main fsW s0W argsBadOrder).exitCode = some 1
      ∧ (main fsW s0W argsBadOrder).engineStarted = false :=
  start_after_end_fatal fsW s0W argsBadOrder "2024-02-02" "2024-01-01"
    ⟨2024, 2, 2⟩ ⟨2024, 1, 1⟩ rfl rfl rfl rfl (by decide)

/-- C2: whenever `KEYWORD_LIST` is falsy after the CLI arguments have been
applied to the settings (unset, empty list, empty string — including
`--keywords` strings whose tokens all strip away), `main` aborts with exit
code 1 and the crawl engine is never created or started. -/
theorem empty_keyword_list_aborts (fs : FS) (s0 : Settings) (a : Args)
    (h : optTruthy ((update_settings_from_args s0 a) "KEYWORD_LIST") = false) :
    (main fs s0 a).engineStarted = false
      ∧ (main fs s0 a).exitCode = some 1 := by
  unfold main
  cases hv : validate_arguments fs a with
  | error e => exact ⟨rfl, rfl⟩
  | ok errs =>
    by_cases he : errs = []
    · simp [he, h, MainOutcome.engineStarted, MainOutcome.exitCode]
    · simp [he, MainOutcome.engineStarted, MainOutcome.exitCode]

/-- C2 witness: `--keywords ",, , "` (every token strips away) yields a
falsy `KEYWORD_LIST` and an abort with exit code 1. -/
theorem empty_keyword_list_aborts_witness :
    (main fsW s0W argsCommaOnly).engineStarted = false
      ∧ (main fsW s0W argsCommaOnly).exitCode = some 1 :=
  empty_keyword_list_aborts fsW s0W argsCommaOnly (by decide)

/-- C6: when validation reports no errors and the updated `KEYWORD_LIST` is
truthy, `main` creates the crawl process with the CLI-updated settings and
starts exactly one crawl, of the spider named `search`, blocking until it
completes (the `run` outcome). -/
theorem valid_config_starts_single_search_crawl (fs : FS) (s0 : Settings)
    (a : Args) (hv : validate_arguments fs a = .ok [])
    (hk : optTruthy ((update_settings_from_args s0 a) "KEYWORD_LIST") = true) :
    main fs s0 a = .run (update_settings_from_args s0 a) ["search"] := by
  unfold main
  rw [hv]
  simp [hk]

/-- C6 witness: `--keywords "a, b" --region "c,, d"` starts the single
`search` crawl with the updated settings. -/
theorem valid_config_starts_single_search_crawl_witness :
    main fsW s0W argsKw
      = .run (update_settings_from_args s0W argsKw) ["search"] :=
  valid_config_starts_single_search_crawl fsW s0W argsKw rfl (by decide)

lemma updKeywords_set (a : Args) (s : Settings) (kw : String)
    (hk : a.keywords = some kw) (hne : kw ≠ "") :
    updKeywords a s "KEYWORD_LIST"
      = some (.strList (splitCommaStripFilter kw)) := by
  have htr : strTruthy a.keywords = true := by
    rw [hk]
    simpa [strTruthy] using hne
  unfold updKeywords
  rw [htr]
  simp [hk, Settings.set_same]

lemma updRegion_set (a : Args) (s : Settings) (rg : String)
    (hr : a.region = some rg) (hne : rg ≠ "") :
    updRegion a s "REGION" = some (.strList (splitCommaStripFilter rg)) := by
  have htr : strTruthy a.region = true := by
    rw [hr]
    simpa [strTruthy] using hne
  unfold updRegion
  rw [htr]
  simp [hr, Settings.set_same]

/-- C9: a truthy `--keywords` string sets `KEYWORD_LIST` to its
comma-separated tokens, stripped of surrounding whitespace, with empty
tokens removed and the original left-to-right order preserved (the token
list is an in-order sublist of the stripped split), and the same
split-strip-filter transformation applied to `--region` produces `REGION`. -/
theorem keywords_region_tokenization (s0 : Settings) (a : Args) (kw : String)
    (hk : a.keywords = some kw) (hne : kw ≠ "") :
    (update_settings_from_args s0 a) "KEYWORD_LIST"
        = some (.strList (splitCommaStripFilter kw))
      ∧ (splitCommaStripFilter kw).Sublist
          ((splitComma kw.toList).map (fun g => pyStrip (String.mk g)))
      ∧ (∀ t ∈ splitCommaStripFilter kw, t ≠ "")
      ∧ ∀ rg : String, a.region = some rg → rg ≠ "" →
          (update_settings_from_args s0 a) "REGION"
            = some (.strList (splitCommaStripFilter rg)) := by
  refine ⟨?_, ?_, ?_, ?_⟩
  · unfold update_settings_from_args
    rw [Settings.set_other _ _ _ _ (by decide),
      updOutput_other _ _ _ (by decide) (by decide),
      updDelay_other _ _ _ (by decide),
      updLimit_other _ _ _ (by decide),
      updRegion_other _ _ _ (by decide),
      updContain_other _ _ _ (by decide),
      updWeibo_other _ _ _ (by decide),
      updEnd_other _ _ _ (by decide),
      updStart_other _ _ _ (by decide)]
    exact updKeywords_set a _ kw hk hne
  · exact List.filter_sublist _
  · intro t ht
    have := List.mem_filter.mp ht
    simpa using this.2
  · intro rg hr hrne
    unfold update_settings_from_args
    rw [Settings.set_other _ _ _ _ (by decide),
      updOutput_other _ _ _ (by decide) (by decide),
      updDelay_other _ _ _ (by decide),
      updLimit_other _ _ _ (by decide)]
    exact updRegion_set a _ rg hr hrne

/-- C9 witness: `--keywords "a, b" --region "c,, d"` tokenizes to
`["a", "b"]` and `["c", "d"]`. -/
theorem keywords_region_tokenization_witness :
    (update_settings_from_args s0W argsKw) "KEYWORD_LIST"
        = some (.strList ["a", "b"])
      ∧ (update_settings_from_args s0W argsKw) "REGION"
        = some (.strList ["c", "d"]) := by
  have h := keywords_region_tokenization s0W argsKw "a, b" rfl (by decide)
  constructor
  · rw [h.1]
    decide
  · rw [h.2.2.2 "c,, d" rfl (by decide)]
    decide

/-- The settings keys `update_settings_from_args` may write. -/
def touchedKeys : List String :=
  ["KEYWORD_LIST", "START_DATE", "END_DATE", "WEIBO_TYPE", "CONTAIN_TYPE",
    "REGION", "LIMIT_RESULT", "DOWNLOAD_DELAY", "IMAGES_STORE", "FILES_STORE",
    "LOG_LEVEL"]

lemma updKeywords_skip (a : Args) (s : Settings)
    (h1 : strTruthy a.keywords = false) (h2 : strTruthy a.keyword_file = false) :
    updKeywords a s = s := by
  unfold updKeywords
  rw [h1, h2]
  simp

lemma updStart_skip (a : Args) (s : Settings)
    (h : strTruthy a.start_date = false) : updStart a s = s := by
  unfold updStart
  rw [h]
  simp

lemma updEnd_skip (a : Args) (s : Settings)
    (h : strTruthy a.end_date = false) : updEnd a s = s := by
  unfold updEnd
  rw [h]
  simp

lemma updWeibo_skip (a : Args) (s : Settings) (h : a.weibo_type = none) :
    updWeibo a s = s := by
  unfold updWeibo
  rw [h]

lemma updContain_skip (a : Args) (s : Settings) (h : a.contain_type = none) :
    updContain a s = s := by
  unfold updContain
  rw [h]

lemma updRegion_skip (a : Args) (s : Settings)
    (h : strTruthy a.region = false) : updRegion a s = s := by
  unfold updRegion
  rw [h]
  simp

lemma updLimit_skip (a : Args) (s : Settings) (h : a.limit = none) :
    updLimit a s = s := by
  unfold updLimit
  rw [h]

lemma updDelay_skip (a : Args) (s : Settings) (h : a.delay = none) :
    updDelay a s = s := by
  unfold updDelay
  rw [h]

lemma updOutput_skip (a : Args) (s : Settings)
    (h : strTruthy a.output_dir = false) : updOutput a s = s := by
  unfold updOutput
  rw [h]
  simp

/-- C10: `update_settings_from_args` only ever writes the ten keys whose
CLI flags were supplied, plus `LOG_LEVEL`, which it sets unconditionally on
every call; every key outside `touchedKeys` keeps its prior value, and each
conditional key keeps its prior value when its flag is absent. -/
theorem update_settings_frame (s0 : Settings) (a : Args) :
    (∀ k, k ∉ touchedKeys → update_settings_from_args s0 a k = s0 k)
    ∧ update_settings_from_args s0 a "LOG_LEVEL" = some (.str a.log_level)
    ∧ (strTruthy a.keywords = false → strTruthy a.keyword_file = false →
        update_settings_from_args s0 a "KEYWORD_LIST" = s0 "KEYWORD_LIST")
    ∧ (strTruthy a.start_date = false →
        update_settings_from_args s0 a "START_DATE" = s0 "START_DATE")
    ∧ (strTruthy a.end_date = false →
        update_settings_from_args s0 a "END_DATE" = s0 "END_DATE")
    ∧ (a.weibo_type = none →
        update_settings_from_args s0 a "WEIBO_TYPE" = s0 "WEIBO_TYPE")
    ∧ (a.contain_type = none →
        update_settings_from_args s0 a "CONTAIN_TYPE" = s0 "CONTAIN_TYPE")
    ∧ (strTruthy a.region = false →
        update_settings_from_args s0 a "REGION" = s0 "REGION")
    ∧ (a.limit = none →
        update_settings_from_args s0 a "LIMIT_RESULT" = s0 "LIMIT_RESULT")
    ∧ (a.delay = none →
        update_settings_from_args s0 a "DOWNLOAD_DELAY" = s0 "DOWNLOAD_DELAY")
    ∧ (strTruthy a.output_dir = false →
        update_settings_from_args s0 a "IMAGES_STORE" = s0 "IMAGES_STORE"
          ∧ update_settings_from_args s0 a "FILES_STORE" = s0 "FILES_STORE") := by
  refine ⟨?_, ?_, ?_, ?_, ?_, ?_, ?_, ?_, ?_, ?_, ?_⟩
  · intro k hk
    simp only [touchedKeys, List.mem_cons, List.not_mem_nil, or_false,
      not_or] at hk
    obtain ⟨n1, n2, n3, n4, n5, n6, n7, n8, n9, n10, n11⟩ := hk
    unfold update_settings_from_args
    rw [Settings.set_other _ _ _ _ n11, updOutput_other _ _ _ n9 n10,
      updDelay_other _ _ _ n8, updLimit_other _ _ _ n7,
      updRegion_other _ _ _ n6, updContain_other _ _ _ n5,
      updWeibo_other _ _ _ n4, updEnd_other _ _ _ n3,
      updStart_other _ _ _ n2, updKeywords_other _ _ _ n1]
  · unfold update_settings_from_args
    exact Settings.set_same _ _ _
  · intro h1 h2
    unfold update_settings_from_args
    rw [Settings.set_other _ _ _ _ (by decide),
      updOutput_other _ _ _ (by decide) (by decide),
      updDelay_other _ _ _ (by decide), updLimit_other _ _ _ (by decide),
      updRegion_other _ _ _ (by decide), updContain_other _ _ _ (by decide),
      updWeibo_other _ _ _ (by decide), updEnd_other _ _ _ (by decide),
      updStart_other _ _ _ (by decide), updKeywords_skip a _ h1 h2]
  · intro h
    unfold update_settings_from_args
    rw [Settings.set_other _ _ _ _ (by decide),
      updOutput_other _ _ _ (by decide) (by decide),
      updDelay_other _ _ _ (by decide), updLimit_other _ _ _ (by decide),
      updRegion_other _ _ _ (by decide), updContain_other _ _ _ (by decide),
      updWeibo_other _ _ _ (by decide), updEnd_other _ _ _ (by decide),
      updStart_skip a _ h, updKeywords_other _ _ _ (by decide)]
  · intro h
    unfold update_settings_from_args
    rw [Settings.set_other _ _ _ _ (by decide),
      updOutput_other _ _ _ (by decide) (by decide),
      updDelay_other _ _ _ (by decide), updLimit_other _ _ _ (by decide),
      updRegion_other _ _ _ (by decide), updContain_other _ _ _ (by decide),
      updWeibo_other _ _ _ (by decide), updEnd_skip a _ h,
      updStart_other _ _ _ (by decide), updKeywords_other _ _ _ (by decide)]
  · intro h
    unfold update_settings_from_args
    rw [Settings.set_other _ _ _ _ (by decide),
      updOutput_other _ _ _ (by decide) (by decide),
      updDelay_other _ _ _ (by decide), updLimit_other _ _ _ (by decide),
      updRegion_other _ _ _ (by decide), updContain_other _ _ _ (by decide),
      updWeibo_skip a _ h, updEnd_other _ _ _ (by decide),
      updStart_other _ _ _ (by decide), updKeywords_other _ _ _ (by decide)]
  · intro h
    unfold update_settings_from_args
    rw [Settings.set_other _ _ _ _ (by decide),
      updOutput_other _ _ _ (by decide) (by decide),
      updDelay_other _ _ _ (by decide), updLimit_other _ _ _ (by decide),
      updRegion_other _ _ _ (by decide), updContain_skip a _ h,
      updWeibo_other _ _ _ (by decide), updEnd_other _ _ _ (by decide),
      updStart_other _ _ _ (by decide), updKeywords_other _ _ _ (by decide)]
  · intro h
    unfold update_settings_from_args
    rw [Settings.set_other _ _ _ _ (by decide),
      updOutput_other _ _ _ (by decide) (by decide),
      updDelay_other _ _ _ (by decide), updLimit_other _ _ _ (by decide),
      updRegion_skip a _ h, updContain_other _ _ _ (by decide),
      updWeibo_other _ _ _ (by decide), updEnd_other _ _ _ (by decide),
      updStart_other _ _ _ (by decide), updKeywords_other _ _ _ (by decide)]
  · intro h
    unfold update_settings_from_args
    rw [Settings.set_other _ _ _ _ (by decide),
      updOutput_other _ _ _ (by decide) (by decide),
      updDelay_other _ _ _ (by decide), updLimit_skip a _ h,
      updRegion_other _ _ _ (by decide), updContain_other _ _ _ (by decide),
      updWeibo_other _ _ _ (by decide), updEnd_other _ _ _ (by decide),
      updStart_other _ _ _ (by decide), updKeywords_other _ _ _ (by decide)]
  · intro h
    unfold update_settings_from_args
    rw [Settings.set_other _ _ _ _ (by decide),
      updOutput_other _ _ _ (by decide) (by decide), updDelay_skip a _ h,
      updLimit_other _ _ _ (by decide), updRegion_other _ _ _ (by decide),
      updContain_other _ _ _ (by decide), updWeibo_other _ _ _ (by decide),
      updEnd_other _ _ _ (by decide), updStart_other _ _ _ (by decide),
      updKeywords_other _ _ _ (by decide)]
  · intro h
    constructor <;>
      · unfold update_settings_from_args
        rw [Settings.set_other _ _ _ _ (by decide), updOutput_skip a _ h,
          updDelay_other _ _ _ (by decide), updLimit_other _ _ _ (by decide),
          updRegion_other _ _ _ (by decide), updContain_other _ _ _ (by decide),
          updWeibo_other _ _ _ (by decide), updEnd_other _ _ _ (by decide),
          updStart_other _ _ _ (by decide), updKeywords_other _ _ _ (by decide)]

/-- C10 witness: with no flags supplied and empty prior settings, an
unrelated key and the conditional keys stay unset while `LOG_LEVEL` is
written. -/
theorem update_settings_frame_witness :
    update_settings_from_args s0W argsNone "DOWNLOAD_TIMEOUT" = none
      ∧ update_settings_from_args s0W argsNone "LOG_LEVEL"
        = some (.str "ERROR")
      ∧ update_settings_from_args s0W argsNone "KEYWORD_LIST" = none
      ∧ update_settings_from_args s0W argsNone "START_DATE" = none := by
  obtain ⟨hframe, hlog, hkw, hstart, _⟩ := update_settings_frame s0W argsNone
  exact ⟨(hframe "DOWNLOAD_TIMEOUT" (by decide)).trans rfl, hlog,
    (hkw rfl rfl).trans rfl, (hstart rfl).trans rfl⟩

/-- C5: splitting a task whose interval spans more than one calendar day
produces two sub-tasks whose day sets are disjoint and whose union is
exactly the original task's day set; both halves satisfy the task
invariant, and a one-day task is never split further. -/
theorem split_days_partition (t : SearchTask) (h : t.date_start < t.date_end) :
    (split t).1.days ∪ (split t).2.days = t.days
    ∧ (split t).1.days ∩ (split t).2.days = ∅
    ∧ (split t).1.date_start ≤ (split t).1.date_end
    ∧ (split t).2.date_start ≤ (split t).2.date_end
    ∧ ∀ u : SearchTask, u.date_start = u.date_end → u.canSplit = false := by
  refine ⟨?_, ?_, ?_, ?_, ?_⟩
  · ext x
    simp only [split, SearchTask.days, Finset.mem_union, Finset.mem_Icc]
    omega
  · ext x
    simp only [split, SearchTask.days, Finset.mem_inter, Finset.mem_Icc,
      Finset.not_mem_empty, iff_false, not_and]
    omega
  · simp only [split]
    omega
  · simp only [split]
    omega
  · intro u hu
    simp [SearchTask.canSplit, hu]

/-- C5 witness: the task over days `10..13` splits into `10..11` and
`12..13`. -/
theorem split_days_partition_witness :
    (split taskW).1.days ∪ (split taskW).2.days = taskW.days
    ∧ (split taskW).1.days ∩ (split taskW).2.days = ∅ :=
  ⟨(split_days_partition taskW (by decide)).1,
    (split_days_partition taskW (by decide)).2.1⟩

/-- C3: over any run — any queue of tasks, any limit — the accepted records
have pairwise distinct `content_id`s, the `SeenSet` is exactly the set of
emitted ids (scoped to the whole run, across task boundaries), and a
candidate is accepted (appended) iff its `content_id` is not already in the
`SeenSet`; otherwise it is silently dropped. -/
theorem dedup_run_scoped_nodup (limit : Nat) (tasks : List (List PostRecord)) :
    ((runTasks limit tasks).emitted.map PostRecord.content_id).Nodup
    ∧ (runTasks limit tasks).seen
        = ((runTasks limit tasks).emitted.map PostRecord.content_id).reverse
    ∧ ∀ st : RunState, ∀ r : PostRecord, st.stopped = false →
        ((stepRecord limit st r).emitted = st.emitted ++ [r]
          ↔ r.content_id ∉ st.seen) := by
  have hinv := inv_runTasks limit tasks
  refine ⟨hinv.2.2.1, hinv.1, ?_⟩
  intro st r hstop
  constructor
  · intro hem
    by_contra hmem
    rw [stepRecord_drop limit st r hstop hmem] at hem
    have hlen := congrArg List.length hem
    simp at hlen
  · intro hmem
    rw [stepRecord_accept limit st r hstop hmem]

/-- C3 witness: a duplicate of `recA` arriving in a later task is dropped;
the emitted ids of the concrete run are distinct, and a fresh record is
accepted from the initial state. -/
theorem dedup_run_scoped_nodup_witness :
    ((runTasks 0 [[recA, recB], [recA]]).emitted.map
        PostRecord.content_id).Nodup
    ∧ (stepRecord 0 RunState.init recA).emitted = [] ++ [recA] := by
  have h := dedup_run_scoped_nodup 0 [[recA, recB], [recA]]
  exact ⟨h.1, (h.2.2 RunState.init recA rfl).mpr (by decide)⟩

/-- C4: with a configured limit `N > 0` a run emits at most `N` records,
stops exactly when the `N`-th record is accepted (and only then), reaches
exactly `N` whenever at least `N` distinct `content_id`s are available,
and once stopped processes nothing further (even mid-task); the ledger
count equals the number of emitted records; with limit `0` the run is never
stopped on account of record count. -/
theorem limit_result_stop_behavior (tasks : List (List PostRecord)) (N : Nat) :
    (0 < N → (runTasks N tasks).emitted.length ≤ N)
    ∧ (0 < N → ((runTasks N tasks).stopped = true
        ↔ (runTasks N tasks).emitted.length = N))
    ∧ (0 < N → N ≤ distinctIds tasks → (runTasks N tasks).emitted.length = N)
    ∧ (runTasks 0 tasks).stopped = false
    ∧ (runTasks N tasks).emitted_count = (runTasks N tasks).emitted.length
    ∧ ∀ st : RunState, st.stopped = true → runFrom N st tasks = st := by
  obtain ⟨hseen, hcount, hnodup, hlim, _⟩ := inv_runTasks N tasks
  refine ⟨?_, ?_, ?_, (inv_runTasks 0 tasks).2.2.2.2 rfl, hcount,
    runFrom_stopped N tasks⟩
  · intro hpos
    have := (hlim hpos).1
    omega
  · intro hpos
    rw [← hcount]
    exact (hlim hpos).2
  · intro hpos hdist
    by_contra hne
    have hle : (runTasks N tasks).emitted.length ≤ N := by
      have := (hlim hpos).1
      omega
    have hstop : (runTasks N tasks).stopped = false := by
      rcases Bool.eq_false_or_eq_true (runTasks N tasks).stopped with hb | hb
      · exact absurd (by rw [← hcount]; exact (hlim hpos).2.mp hb) hne
      · exact hb
    have hflat : runTasks N tasks
        = tasks.flatten.foldl (stepRecord N) RunState.init :=
      runFrom_eq_flatten N tasks RunState.init
    have hcover : ∀ r ∈ tasks.flatten,
        r.content_id ∈ (runTasks N tasks).seen := by
      rw [hflat] at hstop ⊢
      exact foldl_covers N tasks.flatten RunState.init hstop
    have hsub : ((tasks.flatten.map PostRecord.content_id).toFinset : Finset String)
        ⊆ (runTasks N tasks).seen.toFinset := by
      intro x hx
      rw [List.mem_toFinset, List.mem_map] at hx
      obtain ⟨r, hr, rfl⟩ := hx
      rw [List.mem_toFinset]
      exact hcover r hr
    have hseen_nodup : (runTasks N tasks).seen.Nodup := by
      rw [hseen, List.nodup_reverse]
      exact hnodup
    have hcard : distinctIds tasks ≤ (runTasks N tasks).seen.length := by
      calc distinctIds tasks
          ≤ (runTasks N tasks).seen.toFinset.card := Finset.card_le_card hsub
        _ = (runTasks N tasks).seen.length :=
            List.toFinset_card_of_nodup hseen_nodup
    have hseqlen : (runTasks N tasks).seen.length
        = (runTasks N tasks).emitted.length := by
      rw [hseen]
      simp
    omega

/-- C4 witness: with limit 1, the run over `[[recA, recB], [recA]]` emits
exactly one record and stops; with limit 0 it is never stopped. -/
theorem limit_result_stop_behavior_witness :
    (runTasks 1 [[recA, recB], [recA]]).emitted.length = 1
    ∧ (runTasks 0 [[recA, recB], [recA]]).stopped = false := by
  have h := limit_result_stop_behavior [[recA, recB], [recA]] 1
  have h0 := limit_result_stop_behavior [[recA, recB], [recA]] 0
  exact ⟨h.2.2.1 (by decide) (by decide), h0.2.2.2.1⟩

end WeiboSearch
